import Mathlib

/-! # Client-side orchestration layer of the Regulatory Report Assistant

A shallow embedding of `frontend/src/App.js`: the component state, the four
asynchronous operations (`fetchHistory`, `fetchAnalytics`, `processReport`,
`translateText`) cut at their `await` points, the error-message extraction,
and the chart data derivation (`severityData`, `outcomeData`).

JavaScript strings are sequences of UTF-16 code units; they are embedded as
lists of natural numbers, one per code unit.
-/

namespace App

/-! ## JavaScript strings -/

/-- A JavaScript string: its UTF-16 code units, in order. -/
abbrev JSString := List Nat

/-- UTF-16 encoding of one code point. -/
def utf16Encode (cp : Nat) : JSString :=
  if cp < 0x10000 then [cp]
  else [0xD800 + (cp - 0x10000) / 0x400, 0xDC00 + (cp - 0x10000) % 0x400]

/-- The JavaScript string written as a literal in the source. -/
def utf16 (s : String) : JSString :=
  s.toList.flatMap (fun c => utf16Encode c.toNat)

/-- Code units removed by `String.prototype.trim`: the ECMAScript WhiteSpace
and LineTerminator code points. -/
def isWhiteSpace (u : Nat) : Bool :=
  u == 0x0009 || u == 0x000A || u == 0x000B || u == 0x000C || u == 0x000D ||
  u == 0x0020 || u == 0x00A0 || u == 0x1680 || (0x2000 ≤ u && u ≤ 0x200A) ||
  u == 0x2028 || u == 0x2029 || u == 0x202F || u == 0x205F || u == 0x3000 ||
  u == 0xFEFF

/-- `String.prototype.trim`: drops leading and trailing white space. -/
def trim (s : JSString) : JSString :=
  ((s.dropWhile isWhiteSpace).reverse.dropWhile isWhiteSpace).reverse

/-- `String.prototype.charAt`: the one-unit string at `pos`, or the empty
string when `pos` is out of range. -/
def charAt (s : JSString) (pos : Nat) : JSString :=
  match s[pos]? with
  | some u => [u]
  | none => []

/-- `String.prototype.slice(start)` for a non-negative `start` and no end. -/
def slice (s : JSString) (start : Nat) : JSString :=
  s.drop start

/-- The code points of a string (ECMAScript StringToCodePoints): a leading
surrogate followed by a trailing surrogate is one code point, every other code
unit stands for itself. -/
def codePoints : JSString → List Nat
  | [] => []
  | [u] => [u]
  | hi :: lo :: rest =>
    if 0xD800 ≤ hi ∧ hi ≤ 0xDBFF ∧ 0xDC00 ≤ lo ∧ lo ≤ 0xDFFF then
      (0x10000 + (hi - 0xD800) * 0x400 + (lo - 0xDC00)) :: codePoints rest
    else
      hi :: codePoints (lo :: rest)

/-- A run of code points with a one-to-one upper-case mapping: the code points
`lo, lo + step, ..., hi` map to `target, target + step, ...`. -/
structure CaseRange where
  lo : Nat
  hi : Nat
  step : Nat
  target : Nat

/-- A code point whose upper-case form is a sequence of several code points. -/
structure SpecialCase where
  cp : Nat
  upper : List Nat

/-- Simple upper-case mappings of the Unicode Character Database (17.0), as
runs. -/
def upperSimple : List CaseRange :=
  [CaseRange.mk 0x0061 0x007A 1 0x0041, CaseRange.mk 0x00B5 0x00B5 1 0x039C,
   CaseRange.mk 0x00E0 0x00F6 1 0x00C0, CaseRange.mk 0x00F8 0x00FE 1 0x00D8,
   CaseRange.mk 0x00FF 0x00FF 1 0x0178, CaseRange.mk 0x0101 0x012F 2 0x0100,
   CaseRange.mk 0x0131 0x0131 1 0x0049, CaseRange.mk 0x0133 0x0137 2 0x0132,
   CaseRange.mk 0x013A 0x0148 2 0x0139, CaseRange.mk 0x014B 0x0177 2 0x014A,
   CaseRange.mk 0x017A 0x017E 2 0x0179, CaseRange.mk 0x017F 0x017F 1 0x0053,
   CaseRange.mk 0x0180 0x0180 1 0x0243, CaseRange.mk 0x0183 0x0185 2 0x0182,
   CaseRange.mk 0x0188 0x0188 1 0x0187, CaseRange.mk 0x018C 0x018C 1 0x018B,
   CaseRange.mk 0x0192 0x0192 1 0x0191, CaseRange.mk 0x0195 0x0195 1 0x01F6,
   CaseRange.mk 0x0199 0x0199 1 0x0198, CaseRange.mk 0x019A 0x019A 1 0x023D,
   CaseRange.mk 0x019B 0x019B 1 0xA7DC, CaseRange.mk 0x019E 0x019E 1 0x0220,
   CaseRange.mk 0x01A1 0x01A5 2 0x01A0, CaseRange.mk 0x01A8 0x01A8 1 0x01A7,
   CaseRange.mk 0x01AD 0x01AD 1 0x01AC, CaseRange.mk 0x01B0 0x01B0 1 0x01AF,
   CaseRange.mk 0x01B4 0x01B6 2 0x01B3, CaseRange.mk 0x01B9 0x01B9 1 0x01B8,
   CaseRange.mk 0x01BD 0x01BD 1 0x01BC, CaseRange.mk 0x01BF 0x01BF 1 0x01F7,
   CaseRange.mk 0x01C5 0x01C5 1 0x01C4, CaseRange.mk 0x01C6 0x01C6 1 0x01C4,
   CaseRange.mk 0x01C8 0x01C8 1 0x01C7, CaseRange.mk 0x01C9 0x01C9 1 0x01C7,
   CaseRange.mk 0x01CB 0x01CB 1 0x01CA, CaseRange.mk 0x01CC 0x01CC 1 0x01CA,
   CaseRange.mk 0x01CE 0x01DC 2 0x01CD, CaseRange.mk 0x01DD 0x01DD 1 0x018E,
   CaseRange.mk 0x01DF 0x01EF 2 0x01DE, CaseRange.mk 0x01F2 0x01F2 1 0x01F1,
   CaseRange.mk 0x01F3 0x01F3 1 0x01F1, CaseRange.mk 0x01F5 0x01F5 1 0x01F4,
   CaseRange.mk 0x01F9 0x021F 2 0x01F8, CaseRange.mk 0x0223 0x0233 2 0x0222,
   CaseRange.mk 0x023C 0x023C 1 0x023B, CaseRange.mk 0x023F 0x0240 1 0x2C7E,
   CaseRange.mk 0x0242 0x0242 1 0x0241, CaseRange.mk 0x0247 0x024F 2 0x0246,
   CaseRange.mk 0x0250 0x0250 1 0x2C6F, CaseRange.mk 0x0251 0x0251 1 0x2C6D,
   CaseRange.mk 0x0252 0x0252 1 0x2C70, CaseRange.mk 0x0253 0x0253 1 0x0181,
   CaseRange.mk 0x0254 0x0254 1 0x0186, CaseRange.mk 0x0256 0x0257 1 0x0189,
   CaseRange.mk 0x0259 0x0259 1 0x018F, CaseRange.mk 0x025B 0x025B 1 0x0190,
   CaseRange.mk 0x025C 0x025C 1 0xA7AB, CaseRange.mk 0x0260 0x0260 1 0x0193,
   CaseRange.mk 0x0261 0x0261 1 0xA7AC, CaseRange.mk 0x0263 0x0263 1 0x0194,
   CaseRange.mk 0x0264 0x0264 1 0xA7CB, CaseRange.mk 0x0265 0x0265 1 0xA78D,
   CaseRange.mk 0x0266 0x0266 1 0xA7AA, CaseRange.mk 0x0268 0x0268 1 0x0197,
   CaseRange.mk 0x0269 0x0269 1 0x0196, CaseRange.mk 0x026A 0x026A 1 0xA7AE,
   CaseRange.mk 0x026B 0x026B 1 0x2C62, CaseRange.mk 0x026C 0x026C 1 0xA7AD,
   CaseRange.mk 0x026F 0x026F 1 0x019C, CaseRange.mk 0x0271 0x0271 1 0x2C6E,
   CaseRange.mk 0x0272 0x0272 1 0x019D, CaseRange.mk 0x0275 0x0275 1 0x019F,
   CaseRange.mk 0x027D 0x027D 1 0x2C64, CaseRange.mk 0x0280 0x0280 1 0x01A6,
   CaseRange.mk 0x0282 0x0282 1 0xA7C5, CaseRange.mk 0x0283 0x0283 1 0x01A9,
   CaseRange.mk 0x0287 0x0287 1 0xA7B1, CaseRange.mk 0x0288 0x0288 1 0x01AE,
   CaseRange.mk 0x0289 0x0289 1 0x0244, CaseRange.mk 0x028A 0x028B 1 0x01B1,
   CaseRange.mk 0x028C 0x028C 1 0x0245, CaseRange.mk 0x0292 0x0292 1 0x01B7,
   CaseRange.mk 0x029D 0x029D 1 0xA7B2, CaseRange.mk 0x029E 0x029E 1 0xA7B0,
   CaseRange.mk 0x0345 0x0345 1 0x0399, CaseRange.mk 0x0371 0x0373 2 0x0370,
   CaseRange.mk 0x0377 0x0377 1 0x0376, CaseRange.mk 0x037B 0x037D 1 0x03FD,
   CaseRange.mk 0x03AC 0x03AC 1 0x0386, CaseRange.mk 0x03AD 0x03AF 1 0x0388,
   CaseRange.mk 0x03B1 0x03C1 1 0x0391, CaseRange.mk 0x03C2 0x03C2 1 0x03A3,
   CaseRange.mk 0x03C3 0x03CB 1 0x03A3, CaseRange.mk 0x03CC 0x03CC 1 0x038C,
   CaseRange.mk 0x03CD 0x03CE 1 0x038E, CaseRange.mk 0x03D0 0x03D0 1 0x0392,
   CaseRange.mk 0x03D1 0x03D1 1 0x0398, CaseRange.mk 0x03D5 0x03D5 1 0x03A6,
   CaseRange.mk 0x03D6 0x03D6 1 0x03A0, CaseRange.mk 0x03D7 0x03D7 1 0x03CF,
   CaseRange.mk 0x03D9 0x03EF 2 0x03D8, CaseRange.mk 0x03F0 0x03F0 1 0x039A,
   CaseRange.mk 0x03F1 0x03F1 1 0x03A1, CaseRange.mk 0x03F2 0x03F2 1 0x03F9,
   CaseRange.mk 0x03F3 0x03F3 1 0x037F, CaseRange.mk 0x03F5 0x03F5 1 0x0395,
   CaseRange.mk 0x03F8 0x03F8 1 0x03F7, CaseRange.mk 0x03FB 0x03FB 1 0x03FA,
   CaseRange.mk 0x0430 0x044F 1 0x0410, CaseRange.mk 0x0450 0x045F 1 0x0400,
   CaseRange.mk 0x0461 0x0481 2 0x0460, CaseRange.mk 0x048B 0x04BF 2 0x048A,
   CaseRange.mk 0x04C2 0x04CE 2 0x04C1, CaseRange.mk 0x04CF 0x04CF 1 0x04C0,
   CaseRange.mk 0x04D1 0x052F 2 0x04D0, CaseRange.mk 0x0561 0x0586 1 0x0531,
   CaseRange.mk 0x10D0 0x10FA 1 0x1C90, CaseRange.mk 0x10FD 0x10FF 1 0x1CBD,
   CaseRange.mk 0x13F8 0x13FD 1 0x13F0, CaseRange.mk 0x1C80 0x1C80 1 0x0412,
   CaseRange.mk 0x1C81 0x1C81 1 0x0414, CaseRange.mk 0x1C82 0x1C82 1 0x041E,
   CaseRange.mk 0x1C83 0x1C84 1 0x0421, CaseRange.mk 0x1C85 0x1C85 1 0x0422,
   CaseRange.mk 0x1C86 0x1C86 1 0x042A, CaseRange.mk 0x1C87 0x1C87 1 0x0462,
   CaseRange.mk 0x1C88 0x1C88 1 0xA64A, CaseRange.mk 0x1C8A 0x1C8A 1 0x1C89,
   CaseRange.mk 0x1D79 0x1D79 1 0xA77D, CaseRange.mk 0x1D7D 0x1D7D 1 0x2C63,
   CaseRange.mk 0x1D8E 0x1D8E 1 0xA7C6, CaseRange.mk 0x1E01 0x1E95 2 0x1E00,
   CaseRange.mk 0x1E9B 0x1E9B 1 0x1E60, CaseRange.mk 0x1EA1 0x1EFF 2 0x1EA0,
   CaseRange.mk 0x1F00 0x1F07 1 0x1F08, CaseRange.mk 0x1F10 0x1F15 1 0x1F18,
   CaseRange.mk 0x1F20 0x1F27 1 0x1F28, CaseRange.mk 0x1F30 0x1F37 1 0x1F38,
   CaseRange.mk 0x1F40 0x1F45 1 0x1F48, CaseRange.mk 0x1F51 0x1F57 2 0x1F59,
   CaseRange.mk 0x1F60 0x1F67 1 0x1F68, CaseRange.mk 0x1F70 0x1F71 1 0x1FBA,
   CaseRange.mk 0x1F72 0x1F75 1 0x1FC8, CaseRange.mk 0x1F76 0x1F77 1 0x1FDA,
   CaseRange.mk 0x1F78 0x1F79 1 0x1FF8, CaseRange.mk 0x1F7A 0x1F7B 1 0x1FEA,
   CaseRange.mk 0x1F7C 0x1F7D 1 0x1FFA, CaseRange.mk 0x1FB0 0x1FB1 1 0x1FB8,
   CaseRange.mk 0x1FBE 0x1FBE 1 0x0399, CaseRange.mk 0x1FD0 0x1FD1 1 0x1FD8,
   CaseRange.mk 0x1FE0 0x1FE1 1 0x1FE8, CaseRange.mk 0x1FE5 0x1FE5 1 0x1FEC,
   CaseRange.mk 0x214E 0x214E 1 0x2132, CaseRange.mk 0x2170 0x217F 1 0x2160,
   CaseRange.mk 0x2184 0x2184 1 0x2183, CaseRange.mk 0x24D0 0x24E9 1 0x24B6,
   CaseRange.mk 0x2C30 0x2C5F 1 0x2C00, CaseRange.mk 0x2C61 0x2C61 1 0x2C60,
   CaseRange.mk 0x2C65 0x2C65 1 0x023A, CaseRange.mk 0x2C66 0x2C66 1 0x023E,
   CaseRange.mk 0x2C68 0x2C6C 2 0x2C67, CaseRange.mk 0x2C73 0x2C73 1 0x2C72,
   CaseRange.mk 0x2C76 0x2C76 1 0x2C75, CaseRange.mk 0x2C81 0x2CE3 2 0x2C80,
   CaseRange.mk 0x2CEC 0x2CEE 2 0x2CEB, CaseRange.mk 0x2CF3 0x2CF3 1 0x2CF2,
   CaseRange.mk 0x2D00 0x2D25 1 0x10A0, CaseRange.mk 0x2D27 0x2D27 1 0x10C7,
   CaseRange.mk 0x2D2D 0x2D2D 1 0x10CD, CaseRange.mk 0xA641 0xA66D 2 0xA640,
   CaseRange.mk 0xA681 0xA69B 2 0xA680, CaseRange.mk 0xA723 0xA72F 2 0xA722,
   CaseRange.mk 0xA733 0xA76F 2 0xA732, CaseRange.mk 0xA77A 0xA77C 2 0xA779,
   CaseRange.mk 0xA77F 0xA787 2 0xA77E, CaseRange.mk 0xA78C 0xA78C 1 0xA78B,
   CaseRange.mk 0xA791 0xA793 2 0xA790, CaseRange.mk 0xA794 0xA794 1 0xA7C4,
   CaseRange.mk 0xA797 0xA7A9 2 0xA796, CaseRange.mk 0xA7B5 0xA7C3 2 0xA7B4,
   CaseRange.mk 0xA7C8 0xA7CA 2 0xA7C7, CaseRange.mk 0xA7CD 0xA7DB 2 0xA7CC,
   CaseRange.mk 0xA7F6 0xA7F6 1 0xA7F5, CaseRange.mk 0xAB53 0xAB53 1 0xA7B3,
   CaseRange.mk 0xAB70 0xABBF 1 0x13A0, CaseRange.mk 0xFF41 0xFF5A 1 0xFF21,
   CaseRange.mk 0x10428 0x1044F 1 0x10400, CaseRange.mk 0x104D8 0x104FB 1 0x104B0,
   CaseRange.mk 0x10597 0x105BB 2 0x10570, CaseRange.mk 0x10598 0x105A0 2 0x10571,
   CaseRange.mk 0x105A4 0x105B0 2 0x1057D, CaseRange.mk 0x105B4 0x105B8 2 0x1058D,
   CaseRange.mk 0x105BC 0x105BC 1 0x10595, CaseRange.mk 0x10CC0 0x10CF2 1 0x10C80,
   CaseRange.mk 0x10D70 0x10D85 1 0x10D50, CaseRange.mk 0x118C0 0x118DF 1 0x118A0,
   CaseRange.mk 0x16E60 0x16E7F 1 0x16E40, CaseRange.mk 0x16EBB 0x16ED3 1 0x16EA0,
   CaseRange.mk 0x1E922 0x1E943 1 0x1E900]

/-- Unconditional upper-case mappings of `SpecialCasing.txt` (17.0) that yield
more than one code point. -/
def upperSpecial : List SpecialCase :=
  [SpecialCase.mk 0x00DF [0x0053, 0x0053], SpecialCase.mk 0x0149 [0x02BC, 0x004E],
   SpecialCase.mk 0x01F0 [0x004A, 0x030C], SpecialCase.mk 0x0390 [0x0399, 0x0308, 0x0301],
   SpecialCase.mk 0x03B0 [0x03A5, 0x0308, 0x0301], SpecialCase.mk 0x0587 [0x0535, 0x0552],
   SpecialCase.mk 0x1E96 [0x0048, 0x0331], SpecialCase.mk 0x1E97 [0x0054, 0x0308],
   SpecialCase.mk 0x1E98 [0x0057, 0x030A], SpecialCase.mk 0x1E99 [0x0059, 0x030A],
   SpecialCase.mk 0x1E9A [0x0041, 0x02BE], SpecialCase.mk 0x1F50 [0x03A5, 0x0313],
   SpecialCase.mk 0x1F52 [0x03A5, 0x0313, 0x0300], SpecialCase.mk 0x1F54 [0x03A5, 0x0313, 0x0301],
   SpecialCase.mk 0x1F56 [0x03A5, 0x0313, 0x0342], SpecialCase.mk 0x1F80 [0x1F08, 0x0399],
   SpecialCase.mk 0x1F81 [0x1F09, 0x0399], SpecialCase.mk 0x1F82 [0x1F0A, 0x0399],
   SpecialCase.mk 0x1F83 [0x1F0B, 0x0399], SpecialCase.mk 0x1F84 [0x1F0C, 0x0399],
   SpecialCase.mk 0x1F85 [0x1F0D, 0x0399], SpecialCase.mk 0x1F86 [0x1F0E, 0x0399],
   SpecialCase.mk 0x1F87 [0x1F0F, 0x0399], SpecialCase.mk 0x1F88 [0x1F08, 0x0399],
   SpecialCase.mk 0x1F89 [0x1F09, 0x0399], SpecialCase.mk 0x1F8A [0x1F0A, 0x0399],
   SpecialCase.mk 0x1F8B [0x1F0B, 0x0399], SpecialCase.mk 0x1F8C [0x1F0C, 0x0399],
   SpecialCase.mk 0x1F8D [0x1F0D, 0x0399], SpecialCase.mk 0x1F8E [0x1F0E, 0x0399],
   SpecialCase.mk 0x1F8F [0x1F0F, 0x0399], SpecialCase.mk 0x1F90 [0x1F28, 0x0399],
   SpecialCase.mk 0x1F91 [0x1F29, 0x0399], SpecialCase.mk 0x1F92 [0x1F2A, 0x0399],
   SpecialCase.mk 0x1F93 [0x1F2B, 0x0399], SpecialCase.mk 0x1F94 [0x1F2C, 0x0399],
   SpecialCase.mk 0x1F95 [0x1F2D, 0x0399], SpecialCase.mk 0x1F96 [0x1F2E, 0x0399],
   SpecialCase.mk 0x1F97 [0x1F2F, 0x0399], SpecialCase.mk 0x1F98 [0x1F28, 0x0399],
   SpecialCase.mk 0x1F99 [0x1F29, 0x0399], SpecialCase.mk 0x1F9A [0x1F2A, 0x0399],
   SpecialCase.mk 0x1F9B [0x1F2B, 0x0399], SpecialCase.mk 0x1F9C [0x1F2C, 0x0399],
   SpecialCase.mk 0x1F9D [0x1F2D, 0x0399], SpecialCase.mk 0x1F9E [0x1F2E, 0x0399],
   SpecialCase.mk 0x1F9F [0x1F2F, 0x0399], SpecialCase.mk 0x1FA0 [0x1F68, 0x0399],
   SpecialCase.mk 0x1FA1 [0x1F69, 0x0399], SpecialCase.mk 0x1FA2 [0x1F6A, 0x0399],
   SpecialCase.mk 0x1FA3 [0x1F6B, 0x0399], SpecialCase.mk 0x1FA4 [0x1F6C, 0x0399],
   SpecialCase.mk 0x1FA5 [0x1F6D, 0x0399], SpecialCase.mk 0x1FA6 [0x1F6E, 0x0399],
   SpecialCase.mk 0x1FA7 [0x1F6F, 0x0399], SpecialCase.mk 0x1FA8 [0x1F68, 0x0399],
   SpecialCase.mk 0x1FA9 [0x1F69, 0x0399], SpecialCase.mk 0x1FAA [0x1F6A, 0x0399],
   SpecialCase.mk 0x1FAB [0x1F6B, 0x0399], SpecialCase.mk 0x1FAC [0x1F6C, 0x0399],
   SpecialCase.mk 0x1FAD [0x1F6D, 0x0399], SpecialCase.mk 0x1FAE [0x1F6E, 0x0399],
   SpecialCase.mk 0x1FAF [0x1F6F, 0x0399], SpecialCase.mk 0x1FB2 [0x1FBA, 0x0399],
   SpecialCase.mk 0x1FB3 [0x0391, 0x0399], SpecialCase.mk 0x1FB4 [0x0386, 0x0399],
   SpecialCase.mk 0x1FB6 [0x0391, 0x0342], SpecialCase.mk 0x1FB7 [0x0391, 0x0342, 0x0399],
   SpecialCase.mk 0x1FBC [0x0391, 0x0399], SpecialCase.mk 0x1FC2 [0x1FCA, 0x0399],
   SpecialCase.mk 0x1FC3 [0x0397, 0x0399], SpecialCase.mk 0x1FC4 [0x0389, 0x0399],
   SpecialCase.mk 0x1FC6 [0x0397, 0x0342], SpecialCase.mk 0x1FC7 [0x0397, 0x0342, 0x0399],
   SpecialCase.mk 0x1FCC [0x0397, 0x0399], SpecialCase.mk 0x1FD2 [0x0399, 0x0308, 0x0300],
   SpecialCase.mk 0x1FD3 [0x0399, 0x0308, 0x0301], SpecialCase.mk 0x1FD6 [0x0399, 0x0342],
   SpecialCase.mk 0x1FD7 [0x0399, 0x0308, 0x0342], SpecialCase.mk 0x1FE2 [0x03A5, 0x0308, 0x0300],
   SpecialCase.mk 0x1FE3 [0x03A5, 0x0308, 0x0301], SpecialCase.mk 0x1FE4 [0x03A1, 0x0313],
   SpecialCase.mk 0x1FE6 [0x03A5, 0x0342], SpecialCase.mk 0x1FE7 [0x03A5, 0x0308, 0x0342],
   SpecialCase.mk 0x1FF2 [0x1FFA, 0x0399], SpecialCase.mk 0x1FF3 [0x03A9, 0x0399],
   SpecialCase.mk 0x1FF4 [0x038F, 0x0399], SpecialCase.mk 0x1FF6 [0x03A9, 0x0342],
   SpecialCase.mk 0x1FF7 [0x03A9, 0x0342, 0x0399], SpecialCase.mk 0x1FFC [0x03A9, 0x0399],
   SpecialCase.mk 0xFB00 [0x0046, 0x0046], SpecialCase.mk 0xFB01 [0x0046, 0x0049],
   SpecialCase.mk 0xFB02 [0x0046, 0x004C], SpecialCase.mk 0xFB03 [0x0046, 0x0046, 0x0049],
   SpecialCase.mk 0xFB04 [0x0046, 0x0046, 0x004C], SpecialCase.mk 0xFB05 [0x0053, 0x0054],
   SpecialCase.mk 0xFB06 [0x0053, 0x0054], SpecialCase.mk 0xFB13 [0x0544, 0x0546],
   SpecialCase.mk 0xFB14 [0x0544, 0x0535], SpecialCase.mk 0xFB15 [0x0544, 0x053B],
   SpecialCase.mk 0xFB16 [0x054E, 0x0546], SpecialCase.mk 0xFB17 [0x0544, 0x053D]]

/-- Full upper-case mapping of one code point (Unicode Default Case
Conversion, locale-insensitive). -/
def upperCodePoint (cp : Nat) : List Nat :=
  match upperSpecial.find? (fun e => e.cp == cp) with
  | some e => e.upper
  | none =>
    match upperSimple.find? (fun r => r.lo ≤ cp && cp ≤ r.hi && (cp - r.lo) % r.step == 0) with
    | some r => [r.target + (cp - r.lo)]
    | none => [cp]

/-- `String.prototype.toUpperCase`. -/
def toUpperCase (s : JSString) : JSString :=
  (codePoints s).flatMap (fun cp => (upperCodePoint cp).flatMap utf16Encode)

/-- The label expression of the chart data:
`key.charAt(0).toUpperCase() + key.slice(1)`. -/
def capitalize (key : JSString) : JSString :=
  toUpperCase (charAt key 0) ++ slice key 1

end App

namespace App

/-! ## JavaScript values of response bodies -/

/-- A value of a response body as the code sees it (parsed JSON, or
`undefined` for a missing property). Numbers are kept to the integers: the
code only tests them for truthiness. The properties of an object are listed
in `Object.entries` order, with distinct keys. -/
inductive JSValue where
  | undefined
  | null
  | bool (b : Bool)
  | number (n : Int)
  | string (s : JSString)
  | array (items : List JSValue)
  | object (props : List (JSString × JSValue))

/-- ECMAScript ToBoolean. -/
def truthy : JSValue → Bool
  | .undefined => false
  | .null => false
  | .bool b => b
  | .number n => n != 0
  | .string s => !s.isEmpty
  | .array _ => true
  | .object _ => true

/-- The JavaScript operator `a || b`. -/
def jsOr (a b : JSValue) : JSValue :=
  if truthy a then a else b

/-- Optional property read `v?.name`, for a `name` that no built-in prototype
defines (`error`, `detail`, `report`): the own property of an object, and
`undefined` for everything else. -/
def optProp (v : JSValue) (name : JSString) : JSValue :=
  match v with
  | .object props => (props.lookup name).getD .undefined
  | _ => .undefined

/-- What `axios` resolves with: the parsed body under `data`. -/
structure AxiosResponse (α : Type) where
  data : α

/-- What `axios` rejects with: `response` is absent when no response was
received (transport failure). -/
structure AxiosError where
  response : Option (AxiosResponse JSValue)

/-- The expression `err.response?.data?.name`. -/
def responseField (err : AxiosError) (name : JSString) : JSValue :=
  match err.response with
  | none => .undefined
  | some r => optProp r.data name

/-- The expression
`err.response?.data?.error || err.response?.data?.detail || fallback`. -/
def errorMessage (err : AxiosError) (fallback : JSString) : JSValue :=
  jsOr (jsOr (responseField err (utf16 "error")) (responseField err (utf16 "detail")))
    (.string fallback)

/-! ## Payloads of the four remote operations -/

/-- A distribution mapping of the analytics snapshot, as `Object.entries`
lists it. -/
abbrev Distribution := List (JSString × Nat)

structure ProcessResult where
  drug : JSString
  adverse_events : List JSString
  severity : JSString
  outcome : JSString
deriving DecidableEq

structure HistoryEntry where
  id : Int
  drug : JSString
  adverse_events : List JSString
  severity : JSString
  outcome : JSString
  created_at : JSString
deriving DecidableEq

/-- Body of `GET /reports/`; `reports` may be missing. -/
structure ReportsPayload where
  reports : Option (List HistoryEntry)
deriving DecidableEq

/-- Body of `GET /analytics/`; the code guards every mapping against being
missing. -/
structure AnalyticsSnapshot where
  total_reports : Nat
  severity_distribution : Option Distribution
  outcome_distribution : Option Distribution
  common_drugs : Option Distribution
  common_adverse_events : Option Distribution
deriving DecidableEq

structure TranslationResult where
  translated_text : JSString
  target_language : JSString
deriving DecidableEq

/-! ## Component state -/

inductive Tab where
  | process
  | history
  | analytics
deriving DecidableEq

/-- The nine `useState` cells of `App`. -/
structure State where
  activeTab : Tab
  report : JSString
  result : Option ProcessResult
  loading : Bool
  error : JSValue
  history : List HistoryEntry
  analytics : Option AnalyticsSnapshot
  translation : Option TranslationResult
  translationLoading : Bool

/-- The state on first render. -/
def State.initial : State :=
  { activeTab := .process, report := [], result := none, loading := false,
    error := .null, history := [], analytics := none, translation := none,
    translationLoading := false }

/-- One effect of a handler, in program order: a state setter, a request
handed to `axios`, or a console log. -/
inductive Op where
  | setActiveTab (t : Tab)
  | setReport (r : JSString)
  | setResult (r : Option ProcessResult)
  | setLoading (b : Bool)
  | setError (e : JSValue)
  | setHistory (h : List HistoryEntry)
  | setAnalytics (a : Option AnalyticsSnapshot)
  | setTranslation (t : Option TranslationResult)
  | setTranslationLoading (b : Bool)
  | get (url : JSString)
  | post (url : JSString) (body : JSValue)
  | consoleError (msg : JSString)

/-- Effect of one `Op` on the component state. -/
def State.apply (s : State) : Op → State
  | .setActiveTab t => { s with activeTab := t }
  | .setReport r => { s with report := r }
  | .setResult r => { s with result := r }
  | .setLoading b => { s with loading := b }
  | .setError e => { s with error := e }
  | .setHistory h => { s with history := h }
  | .setAnalytics a => { s with analytics := a }
  | .setTranslation t => { s with translation := t }
  | .setTranslationLoading b => { s with translationLoading := b }
  | .get _ => s
  | .post _ _ => s
  | .consoleError _ => s

/-- The state after a sequence of effects. -/
def run (s : State) (ops : List Op) : State :=
  ops.foldl State.apply s

/-- Whether an effect is a request to the remote service. -/
def Op.isRequest : Op → Bool
  | .get _ => true
  | .post _ _ => true
  | _ => false

/-- Whether an effect is a `GET` of the given address. -/
def Op.isGet (url : JSString) : Op → Bool
  | .get u => u == url
  | _ => false

/-- Whether an effect is a `POST` to the given address. -/
def Op.isPost (url : JSString) : Op → Bool
  | .post u _ => u == url
  | _ => false

/-- A handler segment that ends on a request is suspended at its `await`. -/
def awaits (ops : List Op) : Bool :=
  match ops.getLast? with
  | some op => op.isRequest
  | none => false

/-! ## The asynchronous operations

Each `async` function is cut at its single `await`: the function of the same
name is the part that runs synchronously when it is called, ending with the
request; its `_resume` is the part that runs when the request settles.
`base` is `API_BASE_URL`. -/

/-- `API_BASE_URL`: the environment override when it is set and non-empty,
else the fixed default. -/
def API_BASE_URL (env : Option JSString) : JSString :=
  match env with
  | some url => if url.isEmpty then utf16 "https://asj234.pythonanywhere.com/api" else url
  | none => utf16 "https://asj234.pythonanywhere.com/api"

def reportsUrl (base : JSString) : JSString := base ++ utf16 "/reports/"
def analyticsUrl (base : JSString) : JSString := base ++ utf16 "/analytics/"
def processReportUrl (base : JSString) : JSString := base ++ utf16 "/process-report/"
def translateUrl (base : JSString) : JSString := base ++ utf16 "/translate/"

def fetchHistory (base : JSString) : List Op :=
  [.get (reportsUrl base)]

def fetchHistory_resume : Except AxiosError (AxiosResponse ReportsPayload) → List Op
  | .ok response => [.setHistory (response.data.reports.getD [])]
  | .error _ => [.consoleError (utf16 "Error fetching history:")]

def fetchAnalytics (base : JSString) : List Op :=
  [.get (analyticsUrl base)]

def fetchAnalytics_resume : Except AxiosError (AxiosResponse AnalyticsSnapshot) → List Op
  | .ok response => [.setAnalytics (some response.data)]
  | .error _ => [.consoleError (utf16 "Error fetching analytics:")]

def processReport (base : JSString) (s : State) : List Op :=
  if !truthy (.string (trim s.report)) then
    [.setError (.string (utf16 "Please enter a medical report"))]
  else
    [.setLoading true, .setError .null, .setResult none,
     .post (processReportUrl base) (.object [(utf16 "report", .string s.report)])]

def processReport_resume (base : JSString) :
    Except AxiosError (AxiosResponse ProcessResult) → List Op
  | .ok response =>
    [.setResult (some response.data)] ++ fetchHistory base ++ fetchAnalytics base ++
      [.setLoading false]
  | .error err =>
    [.setError (errorMessage err (utf16 "Error processing report")), .setLoading false]

def translateText (base : JSString) (text language : JSString) : List Op :=
  [.setTranslationLoading true,
   .post (translateUrl base)
     (.object [(utf16 "text", .string text), (utf16 "target_language", .string language)])]

def translateText_resume : Except AxiosError (AxiosResponse TranslationResult) → List Op
  | .ok response => [.setTranslation (some response.data), .setTranslationLoading false]
  | .error err =>
    [.setError (errorMessage err (utf16 "Error translating text")), .setTranslationLoading false]

/-- The mount effect: `fetchHistory(); fetchAnalytics();`. -/
def onMount (base : JSString) : List Op :=
  fetchHistory base ++ fetchAnalytics base

/-- Every effect of one call of `processReport` whose request, if one is
issued, settles with `outcome`. -/
def processReportRun (base : JSString) (s : State)
    (outcome : Except AxiosError (AxiosResponse ProcessResult)) : List Op :=
  if awaits (processReport base s) then
    processReport base s ++ processReport_resume base outcome
  else
    processReport base s

/-- Every effect of one call of `translateText` whose request settles with
`outcome`. -/
def translateTextRun (base : JSString) (text language : JSString)
    (outcome : Except AxiosError (AxiosResponse TranslationResult)) : List Op :=
  translateText base text language ++ translateText_resume outcome

/-- Every effect of one call of `fetchHistory` whose request settles with
`outcome`. -/
def fetchHistoryRun (base : JSString)
    (outcome : Except AxiosError (AxiosResponse ReportsPayload)) : List Op :=
  fetchHistory base ++ fetchHistory_resume outcome

/-- Every effect of one call of `fetchAnalytics` whose request settles with
`outcome`. -/
def fetchAnalyticsRun (base : JSString)
    (outcome : Except AxiosError (AxiosResponse AnalyticsSnapshot)) : List Op :=
  fetchAnalytics base ++ fetchAnalytics_resume outcome

/-! ## The rendered buttons and the event loop -/

def sampleReport : JSString :=
  utf16 "Patient experienced severe nausea and headache after taking Drug X. Patient recovered."

/-- The buttons of the JSX that `App` returns. -/
inductive Control where
  | tabProcess
  | tabHistory
  | tabAnalytics
  | loadSample
  | processButton
  | translateFrench
  | translateSwahili
deriving DecidableEq

/-- A rendered button: its `disabled` attribute and the effects of its
`onClick` handler in the rendered state. -/
structure Button where
  disabled : Bool
  onClick : List Op

/-- The button that `App` renders for a control in state `s`, `none` when the
JSX leaves it out: the three tabs are always there; the sample and Process
Report buttons are inside `activeTab === 'process' && ...`, the latter with
`onClick={processReport} disabled={loading}`; the translate buttons are
further inside `result && ...`, with `disabled={translationLoading}`. -/
def render (base : JSString) (s : State) : Control → Option Button
  | .tabProcess => some ⟨false, [.setActiveTab .process]⟩
  | .tabHistory => some ⟨false, [.setActiveTab .history]⟩
  | .tabAnalytics => some ⟨false, [.setActiveTab .analytics]⟩
  | .loadSample =>
    if s.activeTab = .process then some ⟨false, [.setReport sampleReport]⟩ else none
  | .processButton =>
    if s.activeTab = .process then some ⟨s.loading, processReport base s⟩ else none
  | .translateFrench =>
    if s.activeTab = .process then
      s.result.map (fun result =>
        ⟨s.translationLoading, translateText base result.outcome (utf16 "french")⟩)
    else none
  | .translateSwahili =>
    if s.activeTab = .process then
      s.result.map (fun result =>
        ⟨s.translationLoading, translateText base result.outcome (utf16 "swahili")⟩)
    else none

/-- The effects of a click on a control: the handler of the rendered button
when it is enabled; a disabled button, or one that is not rendered, runs no
handler. -/
def click (base : JSString) (s : State) (c : Control) : List Op :=
  match render base s c with
  | some button => if button.disabled then [] else button.onClick
  | none => []

/-- The four kinds of request that can be awaiting an answer. -/
inductive Pending where
  | reports
  | analytics
  | process
  | translate
deriving DecidableEq

/-- The kind of request an effect issues, told by its method and address. -/
def Op.pending (base : JSString) : Op → Option Pending
  | .get url =>
    if url = reportsUrl base then some .reports
    else if url = analyticsUrl base then some .analytics
    else none
  | .post url _ =>
    if url = processReportUrl base then some .process
    else if url = translateUrl base then some .translate
    else none
  | _ => none

/-- The component together with the requests that have not settled yet. -/
structure System where
  state : State
  inFlight : List Pending

/-- Running a handler segment: its setters update the state, its requests
join the ones in flight. -/
def System.perform (base : JSString) (sys : System) (ops : List Op) : System :=
  { state := run sys.state ops, inFlight := sys.inFlight ++ ops.filterMap (Op.pending base) }

/-- What can happen next: a click, typing in the report text area
(`onChange={(e) => setReport(e.target.value)}`), or one of the requests in
flight settling. -/
inductive Event where
  | click (c : Control)
  | input (text : JSString)
  | reportsSettled (outcome : Except AxiosError (AxiosResponse ReportsPayload))
  | analyticsSettled (outcome : Except AxiosError (AxiosResponse AnalyticsSnapshot))
  | processSettled (outcome : Except AxiosError (AxiosResponse ProcessResult))
  | translateSettled (outcome : Except AxiosError (AxiosResponse TranslationResult))

/-- One turn of the event loop. A settlement for which no request is in
flight cannot happen and leaves the system as it is. -/
def step (base : JSString) (sys : System) : Event → System
  | .click c => sys.perform base (click base sys.state c)
  | .input text =>
    if sys.state.activeTab = .process then sys.perform base [.setReport text] else sys
  | .reportsSettled outcome =>
    if .reports ∈ sys.inFlight then
      System.perform base { sys with inFlight := sys.inFlight.erase .reports }
        (fetchHistory_resume outcome)
    else sys
  | .analyticsSettled outcome =>
    if .analytics ∈ sys.inFlight then
      System.perform base { sys with inFlight := sys.inFlight.erase .analytics }
        (fetchAnalytics_resume outcome)
    else sys
  | .processSettled outcome =>
    if .process ∈ sys.inFlight then
      System.perform base { sys with inFlight := sys.inFlight.erase .process }
        (processReport_resume base outcome)
    else sys
  | .translateSettled outcome =>
    if .translate ∈ sys.inFlight then
      System.perform base { sys with inFlight := sys.inFlight.erase .translate }
        (translateText_resume outcome)
    else sys

/-- The system after the first render and its mount effect. -/
def System.initial (base : JSString) : System :=
  System.perform base { state := State.initial, inFlight := [] } (onMount base)

/-- The system after a sequence of events from the first render. -/
def afterEvents (base : JSString) (events : List Event) : System :=
  events.foldl (step base) (System.initial base)

/-! ## Chart data -/

/-- One record of `severityData` / `outcomeData`. -/
structure ChartDatum where
  name : JSString
  value : Nat
  color : JSString
deriving DecidableEq

def getSeverityColor (severity : JSString) : JSString :=
  if severity = utf16 "severe" then utf16 "#dc2626"
  else if severity = utf16 "moderate" then utf16 "#d97706"
  else if severity = utf16 "mild" then utf16 "#059669"
  else utf16 "#6b7280"

def getOutcomeColor (outcome : JSString) : JSString :=
  if outcome = utf16 "recovered" then utf16 "#059669"
  else if outcome = utf16 "ongoing" then utf16 "#d97706"
  else if outcome = utf16 "fatal" then utf16 "#dc2626"
  else utf16 "#6b7280"

def severityData (analytics : Option AnalyticsSnapshot) : List ChartDatum :=
  match analytics.bind (fun a => a.severity_distribution) with
  | some distribution =>
    distribution.map (fun entry =>
      { name := capitalize entry.1, value := entry.2, color := getSeverityColor entry.1 })
  | none => []

def outcomeData (analytics : Option AnalyticsSnapshot) : List ChartDatum :=
  match analytics.bind (fun a => a.outcome_distribution) with
  | some distribution =>
    distribution.map (fun entry =>
      { name := capitalize entry.1, value := entry.2, color := getOutcomeColor entry.1 })
  | none => []

end App

namespace App

/-! ## Auxiliary facts -/

theorem trim_eq_nil_of_all_whiteSpace (s : JSString)
    (h : ∀ u ∈ s, isWhiteSpace u = true) : trim s = [] := by
  have h1 : s.dropWhile isWhiteSpace = [] := List.dropWhile_eq_nil_iff.mpr h
  simp [trim, h1]

theorem truthy_string_trim (s : JSString) (h : trim s ≠ []) :
    truthy (.string (trim s)) = true := by
  cases ht : trim s with
  | nil => exact absurd ht h
  | cons u rest => simp [truthy]

theorem processReport_of_blank (base : JSString) (s : State) (h : trim s.report = []) :
    processReport base s = [.setError (.string (utf16 "Please enter a medical report"))] := by
  simp [processReport, h, truthy]

theorem processReport_of_nonblank (base : JSString) (s : State) (h : trim s.report ≠ []) :
    processReport base s =
      [.setLoading true, .setError .null, .setResult none,
       .post (processReportUrl base) (.object [(utf16 "report", .string s.report)])] := by
  simp [processReport, truthy_string_trim s.report h]

theorem processReportRun_of_nonblank (base : JSString) (s : State)
    (outcome : Except AxiosError (AxiosResponse ProcessResult)) (h : trim s.report ≠ []) :
    processReportRun base s outcome =
      [.setLoading true, .setError .null, .setResult none,
       .post (processReportUrl base) (.object [(utf16 "report", .string s.report)])] ++
        processReport_resume base outcome := by
  simp [processReportRun, processReport_of_nonblank base s h, awaits, Op.isRequest]

theorem analyticsUrl_ne_reportsUrl (base : JSString) : analyticsUrl base ≠ reportsUrl base := by
  intro h
  have h2 := List.append_cancel_left h
  revert h2
  decide

end App

namespace App

theorem toUpperCase_singleton (u : Nat) :
    toUpperCase [u] = (upperCodePoint u).flatMap utf16Encode := by
  simp [toUpperCase, codePoints]

theorem capitalize_nil : capitalize [] = [] := by
  simp [capitalize, charAt, slice, toUpperCase, codePoints]

theorem capitalize_cons (u : Nat) (rest : JSString) :
    capitalize (u :: rest) = toUpperCase [u] ++ rest := by
  simp [capitalize, charAt, slice]

set_option maxRecDepth 100000 in
/-- Every run of simple mappings that starts in the Basic Multilingual Plane
maps into it. -/
theorem upperSimple_stays_in_bmp :
    ∀ r ∈ upperSimple, r.lo < 0x10000 → r.target + (r.hi - r.lo) < 0x10000 := by
  decide

/-- A code unit without a multi-character upper-case form has an upper-case
form of exactly one code unit. -/
theorem toUpperCase_unit_of_not_special (u : Nat) (hu : u < 0x10000)
    (hs : upperSpecial.find? (fun e => e.cp == u) = none) :
    ∃ c, toUpperCase [u] = [c] := by
  rw [toUpperCase_singleton]
  unfold upperCodePoint
  rw [hs]
  cases hf : upperSimple.find? (fun r => r.lo ≤ u && u ≤ r.hi && (u - r.lo) % r.step == 0) with
  | none =>
    refine ⟨u, ?_⟩
    simp [utf16Encode, hu]
  | some r =>
    have hmem : r ∈ upperSimple := List.mem_of_find?_eq_some hf
    have hp := List.find?_some hf
    simp only [Bool.and_eq_true, decide_eq_true_eq] at hp
    have hb := upperSimple_stays_in_bmp r hmem (by omega)
    refine ⟨r.target + (u - r.lo), ?_⟩
    have hlt : r.target + (u - r.lo) < 0x10000 := by omega
    simp [utf16Encode, hlt]

set_option maxRecDepth 100000 in
/-- Upper-case forms of the ASCII code units. -/
theorem toUpperCase_ascii :
    ∀ u < 128, toUpperCase [u] = [if 0x61 ≤ u ∧ u ≤ 0x7A then u - 0x20 else u] := by
  decide

end App

namespace App

/-! ## At most one submission in flight -/

/-- The pending flag tells whether a process-report request is in flight,
and there is never more than one. -/
def pendingInvariant (sys : System) : Prop :=
  sys.inFlight.count .process = if sys.state.loading = true then 1 else 0

theorem translateUrl_ne_processReportUrl (base : JSString) :
    translateUrl base ≠ processReportUrl base := by
  intro h
  have h2 := List.append_cancel_left h
  revert h2
  decide

theorem perform_nil (base : JSString) (sys : System) : sys.perform base [] = sys := by
  cases sys
  simp [System.perform, run]

theorem pendingInvariant_perform_frame (base : JSString) (sys : System) (ops : List Op)
    (h : pendingInvariant sys)
    (hl : (run sys.state ops).loading = sys.state.loading)
    (hp : (ops.filterMap (Op.pending base)).count .process = 0) :
    pendingInvariant (sys.perform base ops) := by
  unfold pendingInvariant at *
  simp only [System.perform, List.count_append, hp, hl, h, Nat.add_zero]

theorem pendingInvariant_erase (sys : System) (p : Pending) (hp : p ≠ .process)
    (h : pendingInvariant sys) :
    pendingInvariant { sys with inFlight := sys.inFlight.erase p } := by
  unfold pendingInvariant at *
  simp only [List.count_erase_of_ne (Ne.symm hp), h]

theorem pendingInvariant_translateText (base : JSString) (sys : System)
    (text language : JSString) (h : pendingInvariant sys) :
    pendingInvariant (sys.perform base (translateText base text language)) := by
  refine pendingInvariant_perform_frame base sys _ h rfl ?_
  simp [translateText, Op.pending, translateUrl_ne_processReportUrl]

theorem pendingInvariant_click (base : JSString) (sys : System) (c : Control)
    (h : pendingInvariant sys) :
    pendingInvariant (sys.perform base (click base sys.state c)) := by
  cases c with
  | tabProcess => refine pendingInvariant_perform_frame base sys _ h ?_ ?_ <;> rfl
  | tabHistory => refine pendingInvariant_perform_frame base sys _ h ?_ ?_ <;> rfl
  | tabAnalytics => refine pendingInvariant_perform_frame base sys _ h ?_ ?_ <;> rfl
  | loadSample =>
    by_cases ht : sys.state.activeTab = .process
    · have hc : click base sys.state .loadSample = [.setReport sampleReport] := by
        simp [click, render, ht]
      rw [hc]
      refine pendingInvariant_perform_frame base sys _ h ?_ ?_ <;> rfl
    · have hc : click base sys.state .loadSample = [] := by simp [click, render, ht]
      rw [hc, perform_nil]
      exact h
  | processButton =>
    by_cases ht : sys.state.activeTab = .process
    · cases hl : sys.state.loading with
      | true =>
        have hc : click base sys.state .processButton = [] := by simp [click, render, ht, hl]
        rw [hc, perform_nil]
        exact h
      | false =>
        have hc : click base sys.state .processButton = processReport base sys.state := by
          simp [click, render, ht, hl]
        rw [hc]
        by_cases hb : trim sys.state.report = []
        · rw [processReport_of_blank base sys.state hb]
          refine pendingInvariant_perform_frame base sys _ h ?_ ?_ <;> rfl
        · rw [processReport_of_nonblank base sys.state hb]
          unfold pendingInvariant at *
          simp [System.perform, run, State.apply, Op.pending, h, hl]
    · have hc : click base sys.state .processButton = [] := by simp [click, render, ht]
      rw [hc, perform_nil]
      exact h
  | translateFrench =>
    by_cases ht : sys.state.activeTab = .process
    · cases hr : sys.state.result with
      | none =>
        have hc : click base sys.state .translateFrench = [] := by simp [click, render, ht, hr]
        rw [hc, perform_nil]
        exact h
      | some result =>
        cases hl : sys.state.translationLoading with
        | true =>
          have hc : click base sys.state .translateFrench = [] := by
            simp [click, render, ht, hr, hl]
          rw [hc, perform_nil]
          exact h
        | false =>
          have hc : click base sys.state .translateFrench =
              translateText base result.outcome (utf16 "french") := by
            simp [click, render, ht, hr, hl]
          rw [hc]
          exact pendingInvariant_translateText base sys _ _ h
    · have hc : click base sys.state .translateFrench = [] := by simp [click, render, ht]
      rw [hc, perform_nil]
      exact h
  | translateSwahili =>
    by_cases ht : sys.state.activeTab = .process
    · cases hr : sys.state.result with
      | none =>
        have hc : click base sys.state .translateSwahili = [] := by simp [click, render, ht, hr]
        rw [hc, perform_nil]
        exact h
      | some result =>
        cases hl : sys.state.translationLoading with
        | true =>
          have hc : click base sys.state .translateSwahili = [] := by
            simp [click, render, ht, hr, hl]
          rw [hc, perform_nil]
          exact h
        | false =>
          have hc : click base sys.state .translateSwahili =
              translateText base result.outcome (utf16 "swahili") := by
            simp [click, render, ht, hr, hl]
          rw [hc]
          exact pendingInvariant_translateText base sys _ _ h
    · have hc : click base sys.state .translateSwahili = [] := by simp [click, render, ht]
      rw [hc, perform_nil]
      exact h

theorem pendingInvariant_step (base : JSString) (sys : System) (e : Event)
    (h : pendingInvariant sys) : pendingInvariant (step base sys e) := by
  cases e with
  | click c => exact pendingInvariant_click base sys c h
  | input text =>
    simp only [step]
    split_ifs
    · refine pendingInvariant_perform_frame base sys _ h ?_ ?_ <;> rfl
    · exact h
  | reportsSettled outcome =>
    simp only [step]
    split_ifs
    · apply pendingInvariant_perform_frame base _ _
        (pendingInvariant_erase sys .reports (by decide) h)
      · cases outcome <;> rfl
      · cases outcome <;> rfl
    · exact h
  | analyticsSettled outcome =>
    simp only [step]
    split_ifs
    · apply pendingInvariant_perform_frame base _ _
        (pendingInvariant_erase sys .analytics (by decide) h)
      · cases outcome <;> rfl
      · cases outcome <;> rfl
    · exact h
  | translateSettled outcome =>
    simp only [step]
    split_ifs
    · apply pendingInvariant_perform_frame base _ _
        (pendingInvariant_erase sys .translate (by decide) h)
      · cases outcome <;> rfl
      · cases outcome <;> rfl
    · exact h
  | processSettled outcome =>
    simp only [step]
    split_ifs with hm
    · have hpos : 0 < sys.inFlight.count .process := List.count_pos_iff.mpr hm
      unfold pendingInvariant at *
      have hl : sys.state.loading = true := by
        by_contra hne
        rw [if_neg hne] at h
        omega
      rw [if_pos hl] at h
      have he : (sys.inFlight.erase .process).count .process = 0 := by
        rw [List.count_erase_self, h]
      cases outcome with
      | ok response =>
        simp [System.perform, run, State.apply, processReport_resume, fetchHistory,
          fetchAnalytics, Op.pending, he, analyticsUrl_ne_reportsUrl]
      | error err =>
        simp [System.perform, run, State.apply, processReport_resume, Op.pending, he]
    · exact h

theorem pendingInvariant_initial (base : JSString) : pendingInvariant (System.initial base) := by
  unfold pendingInvariant
  simp [System.initial, System.perform, onMount, fetchHistory, fetchAnalytics, Op.pending,
    analyticsUrl_ne_reportsUrl, run, State.apply, State.initial]

theorem pendingInvariant_foldl (base : JSString) (events : List Event) (sys : System)
    (h : pendingInvariant sys) : pendingInvariant (events.foldl (step base) sys) := by
  induction events generalizing sys with
  | nil => exact h
  | cons e rest ih => exact ih (step base sys e) (pendingInvariant_step base sys e h)

theorem pendingInvariant_afterEvents (base : JSString) (events : List Event) :
    pendingInvariant (afterEvents base events) :=
  pendingInvariant_foldl base events _ (pendingInvariant_initial base)

end App

namespace App

/-! ## Report submission: validation -/

/-- C1 (as stated, refuted): on the first render, with the blank draft
`"  \n"`, one call of `processReport` changes the stored error: it was `null`
and becomes the validation message. -/
theorem processReport_blank_changes_error :
    (∀ u ∈ utf16 "  \n", isWhiteSpace u = true) ∧
    (run { State.initial with report := utf16 "  \n" }
        (processReportRun (API_BASE_URL none) { State.initial with report := utf16 "  \n" }
          (.error ⟨none⟩))).error
      ≠ ({ State.initial with report := utf16 "  \n" } : State).error := by
  refine ⟨by decide, ?_⟩
  intro h
  have h2 : (JSValue.string (utf16 "Please enter a medical report")) = JSValue.null := h
  cases h2

/-- C1 (amended): for every draft that is empty or consists only of white
space, and every prior state, one call of `processReport` issues no request
(its only effect is one `setError`), leaves the pending flag, the stored
result, the history and the analytics unchanged, and replaces the stored error
by the validation message `Please enter a medical report`. -/
theorem processReport_blank_draft (base : JSString) (s : State)
    (outcome : Except AxiosError (AxiosResponse ProcessResult))
    (h : ∀ u ∈ s.report, isWhiteSpace u = true) :
    processReportRun base s outcome =
        [.setError (.string (utf16 "Please enter a medical report"))] ∧
    (∀ op ∈ processReportRun base s outcome, op.isRequest = false) ∧
    (run s (processReportRun base s outcome)).loading = s.loading ∧
    (run s (processReportRun base s outcome)).result = s.result ∧
    (run s (processReportRun base s outcome)).history = s.history ∧
    (run s (processReportRun base s outcome)).analytics = s.analytics ∧
    (run s (processReportRun base s outcome)).error =
      .string (utf16 "Please enter a medical report") := by
  have hb := processReport_of_blank base s (trim_eq_nil_of_all_whiteSpace s.report h)
  have hr : processReportRun base s outcome =
      [.setError (.string (utf16 "Please enter a medical report"))] := by
    simp [processReportRun, hb, awaits, Op.isRequest]
  rw [hr]
  refine ⟨rfl, ?_, rfl, rfl, rfl, rfl, rfl⟩
  intro op hop
  simp at hop
  subst hop
  rfl

theorem processReport_blank_draft_witness :
    (∀ u ∈ ({ State.initial with report := utf16 " \t " } : State).report,
        isWhiteSpace u = true) ∧
    (run { State.initial with report := utf16 " \t " }
        (processReportRun (API_BASE_URL none) { State.initial with report := utf16 " \t " }
          (.error ⟨none⟩))).error =
      .string (utf16 "Please enter a medical report") :=
  ⟨by decide,
   (processReport_blank_draft (API_BASE_URL none) { State.initial with report := utf16 " \t " }
      (.error ⟨none⟩) (by decide)).2.2.2.2.2.2⟩

/-! ## Error-message extraction -/

/-- C2 (as stated, refuted): the failure body
`{error: "", detail: "model unavailable"}` has an `error` field, yet the
message stored by the failed submission is the `detail` field, not the
`error` field. -/
theorem errorMessage_skips_empty_error_field :
    ([(utf16 "error", JSValue.string (utf16 "")),
      (utf16 "detail", JSValue.string (utf16 "model unavailable"))].lookup (utf16 "error")
        = some (JSValue.string (utf16 ""))) ∧
    (run State.initial (processReport_resume (API_BASE_URL none)
        (.error ⟨some ⟨.object [(utf16 "error", .string (utf16 "")),
          (utf16 "detail", .string (utf16 "model unavailable"))]⟩⟩))).error
      = .string (utf16 "model unavailable") ∧
    JSValue.string (utf16 "model unavailable") ≠ JSValue.string (utf16 "") := by
  refine ⟨rfl, rfl, ?_⟩
  intro h
  injection h with h
  revert h
  decide

/-- C2 (amended): for every failed process-report call the stored error is
the failure body's `error` field if that field is truthy (present and, for a
string, non-empty), otherwise its `detail` field if that is truthy, otherwise
the fallback `Error processing report`; a failed translate stores by the same
chain with the fallback `Error translating text`. A field of an object body is
its own property, and a missing response has neither field. In particular
the body `{detail: "model unavailable"}` yields `model unavailable`. -/
theorem errorMessage_fallback_chain (base : JSString) (s : State) (err : AxiosError) :
    (run s (processReport_resume base (.error err))).error =
      (if truthy (responseField err (utf16 "error")) then responseField err (utf16 "error")
       else if truthy (responseField err (utf16 "detail")) then
         responseField err (utf16 "detail")
       else .string (utf16 "Error processing report")) ∧
    (run s (translateText_resume (.error err))).error =
      (if truthy (responseField err (utf16 "error")) then responseField err (utf16 "error")
       else if truthy (responseField err (utf16 "detail")) then
         responseField err (utf16 "detail")
       else .string (utf16 "Error translating text")) ∧
    (∀ (props : List (JSString × JSValue)) (name : JSString),
      responseField ⟨some ⟨.object props⟩⟩ name = (props.lookup name).getD .undefined) ∧
    (∀ name : JSString, responseField ⟨none⟩ name = .undefined) ∧
    (run s (processReport_resume base
        (.error ⟨some ⟨.object [(utf16 "detail", .string (utf16 "model unavailable"))]⟩⟩))).error
      = .string (utf16 "model unavailable") := by
  refine ⟨?_, ?_, fun _ _ => rfl, fun _ => rfl, rfl⟩
  · show errorMessage err (utf16 "Error processing report") = _
    unfold errorMessage jsOr
    split_ifs <;> simp_all [truthy]
  · show errorMessage err (utf16 "Error translating text") = _
    unfold errorMessage jsOr
    split_ifs <;> simp_all [truthy]

end App

namespace App

/-! ## Report submission: cascading refreshes -/

/-- C3: for every draft whose trimmed text is non-empty, one call of
`processReport` whose request succeeds starts exactly one history refresh
(`GET /reports/`) and exactly one analytics refresh (`GET /analytics/`), both
after the result has been stored: the effects split into a part without any
`GET` after which the stored result is the response body, and a rest. The
counts stay one whatever the two refreshes settle with. When the request
fails, no refresh is started. -/
theorem processReport_refresh_cascade (base : JSString) (s : State)
    (response : AxiosResponse ProcessResult) (err : AxiosError)
    (historyOutcome : Except AxiosError (AxiosResponse ReportsPayload))
    (analyticsOutcome : Except AxiosError (AxiosResponse AnalyticsSnapshot))
    (h : trim s.report ≠ []) :
    (processReportRun base s (.ok response)).countP (Op.isGet (reportsUrl base)) = 1 ∧
    (processReportRun base s (.ok response)).countP (Op.isGet (analyticsUrl base)) = 1 ∧
    (∃ before rest, processReportRun base s (.ok response) = before ++ rest ∧
      (∀ op ∈ before, op.isRequest = true → op.isPost (processReportUrl base) = true) ∧
      (run s before).result = some response.data ∧
      rest.countP (Op.isGet (reportsUrl base)) = 1 ∧
      rest.countP (Op.isGet (analyticsUrl base)) = 1) ∧
    (processReportRun base s (.ok response) ++ fetchHistory_resume historyOutcome ++
        fetchAnalytics_resume analyticsOutcome).countP (Op.isGet (reportsUrl base)) = 1 ∧
    (processReportRun base s (.ok response) ++ fetchHistory_resume historyOutcome ++
        fetchAnalytics_resume analyticsOutcome).countP (Op.isGet (analyticsUrl base)) = 1 ∧
    (∀ op ∈ processReportRun base s (.error err) ++ fetchHistory_resume historyOutcome ++
        fetchAnalytics_resume analyticsOutcome,
      op.isRequest = true → op.isPost (processReportUrl base) = true) := by
  have hne : analyticsUrl base ≠ reportsUrl base := analyticsUrl_ne_reportsUrl base
  have hne2 : reportsUrl base ≠ analyticsUrl base := fun h => hne h.symm
  rw [processReportRun_of_nonblank base s _ h, processReportRun_of_nonblank base s _ h]
  have hH : (fetchHistory_resume historyOutcome).countP (Op.isGet (reportsUrl base)) = 0 ∧
      (fetchHistory_resume historyOutcome).countP (Op.isGet (analyticsUrl base)) = 0 ∧
      ∀ op ∈ fetchHistory_resume historyOutcome, op.isRequest = false := by
    cases historyOutcome <;> simp [fetchHistory_resume, Op.isGet, Op.isRequest]
  have hA : (fetchAnalytics_resume analyticsOutcome).countP (Op.isGet (reportsUrl base)) = 0 ∧
      (fetchAnalytics_resume analyticsOutcome).countP (Op.isGet (analyticsUrl base)) = 0 ∧
      ∀ op ∈ fetchAnalytics_resume analyticsOutcome, op.isRequest = false := by
    cases analyticsOutcome <;> simp [fetchAnalytics_resume, Op.isGet, Op.isRequest]
  refine ⟨?_, ?_, ?_, ?_, ?_, ?_⟩
  · simp [processReport_resume, fetchHistory, fetchAnalytics, Op.isGet, hne, List.countP_cons]
  · simp [processReport_resume, fetchHistory, fetchAnalytics, Op.isGet, hne2, List.countP_cons]
  · refine ⟨[.setLoading true, .setError .null, .setResult none,
        .post (processReportUrl base) (.object [(utf16 "report", .string s.report)]),
        .setResult (some response.data)],
      fetchHistory base ++ fetchAnalytics base ++ [.setLoading false], ?_, ?_, rfl, ?_, ?_⟩
    · simp [processReport_resume]
    · intro op hop hreq
      simp at hop
      rcases hop with rfl | rfl | rfl | rfl | rfl <;> simp_all [Op.isRequest, Op.isPost]
    · simp [fetchHistory, fetchAnalytics, Op.isGet, hne, List.countP_cons]
    · simp [fetchHistory, fetchAnalytics, Op.isGet, hne2, List.countP_cons]
  · simp only [List.countP_append, hH.1, hA.1]
    simp [processReport_resume, fetchHistory, fetchAnalytics, Op.isGet, hne, List.countP_cons]
  · simp only [List.countP_append, hH.2.1, hA.2.1]
    simp [processReport_resume, fetchHistory, fetchAnalytics, Op.isGet, hne2, List.countP_cons]
  · intro op hop hreq
    simp only [List.mem_append] at hop
    rcases hop with (hop | hop) | hop
    · simp [processReport_resume] at hop
      rcases hop with (rfl | rfl | rfl | rfl) | rfl | rfl <;> simp_all [Op.isRequest, Op.isPost]
    · rw [hH.2.2 op hop] at hreq
      cases hreq
    · rw [hA.2.2 op hop] at hreq
      cases hreq

theorem processReport_refresh_cascade_witness :
    trim ({ State.initial with report := utf16 "Patient recovered." } : State).report ≠ [] ∧
    (processReportRun (API_BASE_URL none)
        { State.initial with report := utf16 "Patient recovered." }
        (.ok ⟨⟨utf16 "Drug X", [utf16 "nausea"], utf16 "severe", utf16 "recovered"⟩⟩)).countP
      (Op.isGet (reportsUrl (API_BASE_URL none))) = 1 :=
  ⟨by decide,
   (processReport_refresh_cascade (API_BASE_URL none)
      { State.initial with report := utf16 "Patient recovered." }
      ⟨⟨utf16 "Drug X", [utf16 "nausea"], utf16 "severe", utf16 "recovered"⟩⟩ ⟨none⟩
      (.error ⟨none⟩) (.error ⟨none⟩) (by decide)).1⟩

/-! ## History and analytics refresh -/

/-- C4: for every state, a history refresh or an analytics refresh whose
request fails changes nothing: issuing the request leaves the state as it
was, and the failure branch only logs, so the held history, the held
analytics snapshot and the user-visible error are what they were before, in
whatever state the failure arrives. -/
theorem refresh_failure_keeps_state (base : JSString) (s s2 : State) (err : AxiosError) :
    run s (fetchHistory base) = s ∧
    run s2 (fetchHistory_resume (.error err)) = s2 ∧
    run s (fetchAnalytics base) = s ∧
    run s2 (fetchAnalytics_resume (.error err)) = s2 ∧
    (run s (fetchHistoryRun base (.error err))).history = s.history ∧
    (run s (fetchHistoryRun base (.error err))).analytics = s.analytics ∧
    (run s (fetchHistoryRun base (.error err))).error = s.error ∧
    (run s (fetchAnalyticsRun base (.error err))).history = s.history ∧
    (run s (fetchAnalyticsRun base (.error err))).analytics = s.analytics ∧
    (run s (fetchAnalyticsRun base (.error err))).error = s.error :=
  ⟨rfl, rfl, rfl, rfl, rfl, rfl, rfl, rfl, rfl, rfl⟩

/-! ## Report submission while pending -/

/-- C8: `processReport` is invoked from the Process Report button only, which
is disabled while the pending flag is set. In every state with the flag set,
whatever the draft, a click on the button runs nothing; and after any sequence
of events from the first render that leaves the submission pending, a click on
the button is a no-op: no request is issued and the state and the requests in
flight are unchanged, so the one process-report request that made the
submission pending stays the only one in flight. -/
theorem submit_while_pending_noop (base : JSString) (events : List Event)
    (h : (afterEvents base events).state.loading = true) :
    (∀ s : State, s.loading = true →
      click base s .processButton = [] ∧ run s (click base s .processButton) = s) ∧
    step base (afterEvents base events) (.click .processButton) = afterEvents base events ∧
    afterEvents base (events ++ [.click .processButton]) = afterEvents base events ∧
    (afterEvents base events).inFlight.count .process = 1 ∧
    (afterEvents base (events ++ [.click .processButton])).inFlight.count .process = 1 := by
  have hclick : ∀ s : State, s.loading = true → click base s .processButton = [] := by
    intro s hs
    by_cases ht : s.activeTab = .process <;> simp [click, render, ht, hs]
  have hstep : step base (afterEvents base events) (.click .processButton) =
      afterEvents base events := by
    simp only [step, hclick _ h, perform_nil]
  have hrun : afterEvents base (events ++ [.click .processButton]) =
      afterEvents base events := by
    simp only [afterEvents, List.foldl_append, List.foldl_cons, List.foldl_nil]
    exact hstep
  have hinv := pendingInvariant_afterEvents base events
  unfold pendingInvariant at hinv
  rw [if_pos h] at hinv
  refine ⟨?_, hstep, hrun, hinv, ?_⟩
  · intro s hs
    rw [hclick s hs]
    exact ⟨rfl, rfl⟩
  · rw [hrun]
    exact hinv

theorem submit_while_pending_noop_witness :
    (afterEvents (API_BASE_URL none)
        [.input (utf16 "Patient recovered."), .click .processButton]).state.loading = true ∧
    afterEvents (API_BASE_URL none)
        ([.input (utf16 "Patient recovered."), .click .processButton] ++
          [.click .processButton]) =
      afterEvents (API_BASE_URL none)
        [.input (utf16 "Patient recovered."), .click .processButton] ∧
    (afterEvents (API_BASE_URL none)
        [.input (utf16 "Patient recovered."), .click .processButton]).inFlight =
      [.reports, .analytics, .process] :=
  ⟨rfl,
   (submit_while_pending_noop (API_BASE_URL none)
      [.input (utf16 "Patient recovered."), .click .processButton] rfl).2.2.1,
   by decide⟩

/-! ## Request body of a submission -/

/-- C9 (as stated, refuted): for the draft `" x "`, whose trimmed text is
`x`, the `report` field of the request body is the draft itself, not the
trimmed text. -/
theorem processReport_body_not_trimmed :
    trim (utf16 " x ") = utf16 "x" ∧
    processReport (API_BASE_URL none) { State.initial with report := utf16 " x " } =
      [.setLoading true, .setError .null, .setResult none,
       .post (processReportUrl (API_BASE_URL none))
         (.object [(utf16 "report", .string (utf16 " x "))])] ∧
    optProp (.object [(utf16 "report", .string (utf16 " x "))]) (utf16 "report") ≠
      .string (trim (utf16 " x ")) := by
  refine ⟨by decide, rfl, ?_⟩
  intro h
  have h2 : JSValue.string (utf16 " x ") = JSValue.string (trim (utf16 " x ")) := h
  injection h2 with h3
  revert h3
  decide

/-- C9 (amended): for every draft whose trimmed text is non-empty, and
whatever the request settles with, one call of `processReport` sends a
process-report request, and the `report` field of the body of every
process-report request it sends is the draft as it stands, untrimmed; that
field is the trimmed text exactly when trimming does not change the draft. -/
theorem processReport_body_is_draft (base : JSString) (s : State)
    (outcome : Except AxiosError (AxiosResponse ProcessResult))
    (h : trim s.report ≠ []) :
    (∃ body, Op.post (processReportUrl base) body ∈ processReportRun base s outcome) ∧
    (∀ body, Op.post (processReportUrl base) body ∈ processReportRun base s outcome →
      optProp body (utf16 "report") = .string s.report ∧
      (optProp body (utf16 "report") = .string (trim s.report) ↔ trim s.report = s.report)) := by
  rw [processReportRun_of_nonblank base s outcome h]
  refine ⟨⟨.object [(utf16 "report", .string s.report)], by simp⟩, ?_⟩
  intro body hm
  have hb : body = .object [(utf16 "report", .string s.report)] := by
    cases outcome <;>
      simpa [processReport_resume, fetchHistory, fetchAnalytics] using hm
  subst hb
  have hp : optProp (.object [(utf16 "report", .string s.report)]) (utf16 "report") =
      .string s.report := rfl
  rw [hp]
  refine ⟨rfl, ?_, ?_⟩
  · intro he
    injection he with he
    exact he.symm
  · intro he
    rw [he]

theorem processReport_body_is_draft_witness :
    trim ({ State.initial with report := utf16 " x " } : State).report ≠ [] ∧
    ∀ body, Op.post (processReportUrl (API_BASE_URL none)) body ∈
        processReportRun (API_BASE_URL none) { State.initial with report := utf16 " x " }
          (.error ⟨none⟩) →
      optProp body (utf16 "report") = .string (utf16 " x ") :=
  ⟨by decide,
   fun body hm =>
     ((processReport_body_is_draft (API_BASE_URL none)
        { State.initial with report := utf16 " x " } (.error ⟨none⟩) (by decide)).2 body hm).1⟩

/-! ## Translation -/

/-- C10 (as stated, refuted): after a successful submission (a stored result,
no stored error), a translate of the outcome whose request fails with no
response replaces the stored error, which is the one the submission uses. -/
theorem translateText_failure_changes_error :
    (run { State.initial with
            result := some ⟨utf16 "Drug X", [utf16 "nausea"], utf16 "severe", utf16 "recovered"⟩ }
        (translateTextRun (API_BASE_URL none) (utf16 "recovered") (utf16 "french")
          (.error ⟨none⟩))).error = .string (utf16 "Error translating text") ∧
    (run { State.initial with
            result := some ⟨utf16 "Drug X", [utf16 "nausea"], utf16 "severe", utf16 "recovered"⟩ }
        (translateTextRun (API_BASE_URL none) (utf16 "recovered") (utf16 "french")
          (.error ⟨none⟩))).error ≠
      ({ State.initial with
          result := some ⟨utf16 "Drug X", [utf16 "nausea"], utf16 "severe", utf16 "recovered"⟩ }
        : State).error := by
  refine ⟨rfl, ?_⟩
  intro h
  have h2 : JSValue.string (utf16 "Error translating text") = JSValue.null := h
  cases h2

/-- C10 (amended): for every state, text, target language and outcome,
`translateText` leaves the pending flag and the stored result of the
submission unchanged, both when it is called and when its request settles
(in whatever state that happens); a translate that succeeds also leaves the
stored error unchanged, in particular while a submission is pending. A
translate that fails replaces the stored error, which is shared with the
submission, by the translate failure message. -/
theorem translateText_frame (base text language : JSString) (s s2 : State)
    (response : AxiosResponse TranslationResult) (err : AxiosError) :
    (run s (translateText base text language)).loading = s.loading ∧
    (run s (translateText base text language)).result = s.result ∧
    (run s (translateText base text language)).error = s.error ∧
    (run s2 (translateText_resume (.ok response))).loading = s2.loading ∧
    (run s2 (translateText_resume (.ok response))).result = s2.result ∧
    (run s2 (translateText_resume (.ok response))).error = s2.error ∧
    (run s2 (translateText_resume (.error err))).loading = s2.loading ∧
    (run s2 (translateText_resume (.error err))).result = s2.result ∧
    (run s2 (translateText_resume (.error err))).error =
      errorMessage err (utf16 "Error translating text") ∧
    (run s (translateTextRun base text language (.ok response))).loading = s.loading ∧
    (run s (translateTextRun base text language (.ok response))).result = s.result ∧
    (run s (translateTextRun base text language (.ok response))).error = s.error ∧
    (run s (translateTextRun base text language (.ok response))).translation =
      some response.data :=
  ⟨rfl, rfl, rfl, rfl, rfl, rfl, rfl, rfl, rfl, rfl, rfl, rfl, rfl⟩

end App

namespace App

/-! ## Chart data -/

/-- C5: for every distribution mapping, given as its ordered list of
(key, count) entries, `severityData` and `outcomeData` return one record per
entry, in the same order, whose `name` (the label) is the key with its first
code unit replaced by its upper-case form (for an ASCII first letter `a`-`z`
the letter `A`-`Z`), whose `value` is the count and whose `color` is the fixed
table lookup of the key: severity `severe` red `#dc2626`, `moderate` amber
`#d97706`, `mild` green `#059669`, any other key gray `#6b7280`; outcome
`recovered` green, `ongoing` amber, `fatal` red, any other key gray. Each of
the two transforms reads its own mapping only. -/
theorem chartData_records (a : AnalyticsSnapshot) :
    (∀ severity : Distribution, a.severity_distribution = some severity →
      severityData (some a) = severity.map (fun entry =>
        ChartDatum.mk (toUpperCase (entry.1.take 1) ++ entry.1.drop 1) entry.2
          (if entry.1 = utf16 "severe" then utf16 "#dc2626"
           else if entry.1 = utf16 "moderate" then utf16 "#d97706"
           else if entry.1 = utf16 "mild" then utf16 "#059669"
           else utf16 "#6b7280"))) ∧
    (∀ outcome : Distribution, a.outcome_distribution = some outcome →
      outcomeData (some a) = outcome.map (fun entry =>
        ChartDatum.mk (toUpperCase (entry.1.take 1) ++ entry.1.drop 1) entry.2
          (if entry.1 = utf16 "recovered" then utf16 "#059669"
           else if entry.1 = utf16 "ongoing" then utf16 "#d97706"
           else if entry.1 = utf16 "fatal" then utf16 "#dc2626"
           else utf16 "#6b7280"))) ∧
    (∀ (severity : Distribution) (i u : Nat) (rest : JSString) (count : Nat),
      a.severity_distribution = some severity → severity[i]? = some (u :: rest, count) →
      u < 128 →
        (severityData (some a))[i]? =
          some (ChartDatum.mk ((if 0x61 ≤ u ∧ u ≤ 0x7A then u - 0x20 else u) :: rest) count
            (getSeverityColor (u :: rest)))) ∧
    (∀ (outcome : Distribution) (i u : Nat) (rest : JSString) (count : Nat),
      a.outcome_distribution = some outcome → outcome[i]? = some (u :: rest, count) →
      u < 128 →
        (outcomeData (some a))[i]? =
          some (ChartDatum.mk ((if 0x61 ≤ u ∧ u ≤ 0x7A then u - 0x20 else u) :: rest) count
            (getOutcomeColor (u :: rest)))) ∧
    getSeverityColor (utf16 "severe") = utf16 "#dc2626" ∧
    getSeverityColor (utf16 "moderate") = utf16 "#d97706" ∧
    getSeverityColor (utf16 "mild") = utf16 "#059669" ∧
    (∀ key, key ≠ utf16 "severe" → key ≠ utf16 "moderate" → key ≠ utf16 "mild" →
      getSeverityColor key = utf16 "#6b7280") ∧
    getOutcomeColor (utf16 "recovered") = utf16 "#059669" ∧
    getOutcomeColor (utf16 "ongoing") = utf16 "#d97706" ∧
    getOutcomeColor (utf16 "fatal") = utf16 "#dc2626" ∧
    (∀ key, key ≠ utf16 "recovered" → key ≠ utf16 "ongoing" → key ≠ utf16 "fatal" →
      getOutcomeColor key = utf16 "#6b7280") := by
  have hcap : ∀ key : JSString, capitalize key = toUpperCase (key.take 1) ++ key.drop 1 := by
    intro key
    cases key with
    | nil => simp [capitalize_nil, toUpperCase, codePoints]
    | cons u rest => simp [capitalize_cons]
  have hascii : ∀ (u : Nat) (rest : JSString), u < 128 →
      capitalize (u :: rest) = (if 0x61 ≤ u ∧ u ≤ 0x7A then u - 0x20 else u) :: rest := by
    intro u rest hu
    rw [capitalize_cons, toUpperCase_ascii u hu]
    rfl
  refine ⟨?_, ?_, ?_, ?_, by decide, by decide, by decide, ?_, by decide, by decide,
    by decide, ?_⟩
  · intro severity hs
    simp only [severityData, Option.bind, hs, getSeverityColor, hcap]
  · intro outcome ho
    simp only [outcomeData, Option.bind, ho, getOutcomeColor, hcap]
  · intro severity i u rest count hs hi hu
    simp only [severityData, Option.bind, hs, List.getElem?_map, hi, Option.map, hascii u rest hu]
  · intro outcome i u rest count ho hi hu
    simp only [outcomeData, Option.bind, ho, List.getElem?_map, hi, Option.map, hascii u rest hu]
  · intro key h1 h2 h3
    simp [getSeverityColor, h1, h2, h3]
  · intro key h1 h2 h3
    simp [getOutcomeColor, h1, h2, h3]

theorem chartData_records_witness :
    (AnalyticsSnapshot.mk 3 (some [(utf16 "severe", 2), (utf16 "unknown", 1)]) none none
        none).severity_distribution = some [(utf16 "severe", 2), (utf16 "unknown", 1)] ∧
    severityData (some ⟨3, some [(utf16 "severe", 2), (utf16 "unknown", 1)], none, none,
        none⟩) =
      [⟨utf16 "Severe", 2, utf16 "#dc2626"⟩, ⟨utf16 "Unknown", 1, utf16 "#6b7280"⟩] ∧
    outcomeData (some ⟨3, none, some [(utf16 "fatal", 3)], none, none⟩) =
      [⟨utf16 "Fatal", 3, utf16 "#dc2626"⟩] :=
  ⟨rfl,
   ((chartData_records ⟨3, some [(utf16 "severe", 2), (utf16 "unknown", 1)], none, none,
        none⟩).1 [(utf16 "severe", 2), (utf16 "unknown", 1)] rfl).trans (by decide),
   ((chartData_records ⟨3, none, some [(utf16 "fatal", 3)], none, none⟩).2.1
      [(utf16 "fatal", 3)] rfl).trans (by decide)⟩

/-- C6: for every distribution mapping, the chart transform that reads it
(`severityData` for the severity mapping, `outcomeData` for the outcome
mapping, each whatever the other mapping is) has exactly as many records as
the mapping has entries, and the sum of their `value` fields is the sum of the
mapping's counts. -/
theorem chartData_cardinality (a : AnalyticsSnapshot) :
    (∀ severity : Distribution, a.severity_distribution = some severity →
      (severityData (some a)).length = severity.length ∧
      ((severityData (some a)).map (fun d => d.value)).sum =
        (severity.map (fun entry => entry.2)).sum) ∧
    (∀ outcome : Distribution, a.outcome_distribution = some outcome →
      (outcomeData (some a)).length = outcome.length ∧
      ((outcomeData (some a)).map (fun d => d.value)).sum =
        (outcome.map (fun entry => entry.2)).sum) := by
  refine ⟨?_, ?_⟩
  · intro severity hs
    refine ⟨?_, ?_⟩
    · simp [severityData, hs]
    · simp [severityData, hs, Function.comp_def]
  · intro outcome ho
    refine ⟨?_, ?_⟩
    · simp [outcomeData, ho]
    · simp [outcomeData, ho, Function.comp_def]

theorem chartData_cardinality_witness :
    (AnalyticsSnapshot.mk 3 (some [(utf16 "severe", 2), (utf16 "mild", 1)]) none none
        none).severity_distribution = some [(utf16 "severe", 2), (utf16 "mild", 1)] ∧
    (severityData (some ⟨3, some [(utf16 "severe", 2), (utf16 "mild", 1)], none, none,
        none⟩)).length = 2 ∧
    ((outcomeData (some ⟨3, none, some [(utf16 "fatal", 3)], none, none⟩)).map
        (fun d => d.value)).sum = 3 :=
  ⟨rfl,
   ((chartData_cardinality ⟨3, some [(utf16 "severe", 2), (utf16 "mild", 1)], none, none,
        none⟩).1 [(utf16 "severe", 2), (utf16 "mild", 1)] rfl).1,
   ((chartData_cardinality ⟨3, none, some [(utf16 "fatal", 3)], none, none⟩).2
      [(utf16 "fatal", 3)] rfl).2⟩

/-! ## Capitalization of chart labels -/

/-- C7 (as stated, refuted): the key `ß` has length one, its label is `SS`,
of length two: the upper-case form of the first character is two
characters, so the length is not kept and the second character of the
label is not one of the key. -/
theorem capitalize_sharp_s_grows :
    capitalize (utf16 "ßeta") = utf16 "SSeta" ∧
    (capitalize (utf16 "ßeta")).length ≠ (utf16 "ßeta").length ∧
    (capitalize (utf16 "ßeta"))[1]? ≠ (utf16 "ßeta")[1]? := by
  decide

/-- C7 (amended): for every key the label is the upper-case form of the
key's first code unit followed by the rest of the key unchanged, and the
empty key maps to the empty string. When the first code unit is not one of
the code points whose upper-case form has several characters (`upperSpecial`:
`ß`, `ŉ`, the ligatures, ...), the label has the length of the key, every
character after the first is unchanged and the first character is the
upper-case form of the key's first character; for an ASCII first character
that form is the letter `A`-`Z` for `a`-`z` and the character itself
otherwise. E.g. `severe` becomes `Severe`. -/
theorem capitalize_first_only (key : JSString) :
    capitalize key = toUpperCase (key.take 1) ++ key.drop 1 ∧
    (key = [] → capitalize key = []) ∧
    (∀ u rest, key = u :: rest → u < 0x10000 →
      upperSpecial.find? (fun e => e.cp == u) = none →
        (capitalize key).length = key.length ∧
        (∀ i, 1 ≤ i → (capitalize key)[i]? = key[i]?) ∧
        (capitalize key).take 1 = toUpperCase [u]) ∧
    (∀ u rest, key = u :: rest → u < 128 →
      capitalize key = (if 0x61 ≤ u ∧ u ≤ 0x7A then u - 0x20 else u) :: rest) ∧
    capitalize (utf16 "severe") = utf16 "Severe" := by
  refine ⟨?_, ?_, ?_, ?_, by decide⟩
  · cases key with
    | nil => simp [capitalize_nil, toUpperCase, codePoints]
    | cons u rest => simp [capitalize_cons]
  · intro h
    rw [h, capitalize_nil]
  · intro u rest hk hu hs
    obtain ⟨c, hc⟩ := toUpperCase_unit_of_not_special u hu hs
    rw [hk, capitalize_cons, hc]
    refine ⟨by simp, ?_, by simp⟩
    intro i hi
    obtain ⟨j, rfl⟩ : ∃ j, i = j + 1 := ⟨i - 1, by omega⟩
    simp
  · intro u rest hk hu
    rw [hk, capitalize_cons, toUpperCase_ascii u hu]
    rfl

theorem capitalize_first_only_witness :
    (0x6D < 0x10000 ∧ upperSpecial.find? (fun e => e.cp == 0x6D) = none) ∧
    (capitalize (utf16 "mild")).length = (utf16 "mild").length ∧
    capitalize (utf16 "mild") = utf16 "Mild" :=
  ⟨⟨by decide, rfl⟩,
   ((capitalize_first_only (utf16 "mild")).2.2.1 0x6D (utf16 "ild") (by decide)
      (by decide) rfl).1,
   ((capitalize_first_only (utf16 "mild")).2.2.2.1 0x6D (utf16 "ild") (by decide)
      (by decide)).trans (by decide)⟩

end App
